import Mathlib

/-!
Verification of the retrieval-and-context-assembly pipeline of the
nextleap_chatbot repository: the course chunker (`src/processor/chunker.py`),
the conversation memory (`src/query/conversation_memory.py`), the vector-store
wrapper (`src/embeddings/vector_db.py`), the retrieval/ranking and answer
composition (`src/query/query_handler.py`, `src/query/llm_handler.py`).

The Python code is shallowly embedded: dictionaries with heterogeneous values
become association lists over `PyVal`; Python string operations (`strip`,
`lower`, `in`, `split`, slicing) are modelled by executable Lean functions on
`String`/`List Char`; external capabilities (embedder, vector search, LLM
generation) are parameters of the embedded functions.  Fallible operations
(Python exceptions) are modelled with `Option`/`Except`.
-/

/-! ### Python string primitives -/

/-- Model of Python `str.lower()` (per-character lowering). -/
def pyLower (s : String) : String := ⟨s.data.map Char.toLower⟩

/-- Model of Python `str.strip()`: drop leading and trailing whitespace. -/
def pyStrip (s : String) : String :=
  ⟨((s.data.dropWhile Char.isWhitespace).reverse.dropWhile Char.isWhitespace).reverse⟩

/-- `listContainsSub hay needle` models Python `needle in hay` on
character lists: `needle` occurs contiguously in `hay`. -/
def listContainsSub (hay needle : List Char) : Bool :=
  match hay with
  | [] => needle.isEmpty
  | _ :: t => needle.isPrefixOf hay || listContainsSub t needle

/-- Model of Python `needle in hay` for strings. -/
def strContains (hay needle : String) : Bool := listContainsSub hay.data needle.data

/-- Model of Python `s.startswith(pre)`. -/
def strStartsWith (s pre : String) : Bool := pre.data.isPrefixOf s.data

/-- Model of Python `s[:n]` (character slicing). -/
def strTake (s : String) (n : Nat) : String := ⟨s.data.take n⟩

/-! ### Python values and dictionaries

Metadata dictionaries in the source hold strings, numbers, lists of strings,
or `None`; `PyVal` is the corresponding value type, and a dictionary is an
association list (first binding wins, as in the literal dicts of the source).
-/

inductive PyVal where
  | none
  | str (s : String)
  | int (n : Int)
  | list (l : List String)
deriving DecidableEq, Repr

/-- Python truthiness of a `PyVal` (`if value:`). -/
def PyVal.truthy : PyVal → Bool
  | .none => false
  | .str s => s ≠ ""
  | .int n => n ≠ 0
  | .list l => !l.isEmpty

/-- Model of `d.get(k)` on a metadata dict: the bound value, or `None`. -/
def pvGet (d : List (String × PyVal)) (k : String) : PyVal :=
  match d.find? (fun kv => decide (kv.1 = k)) with
  | some kv => kv.2
  | Option.none => PyVal.none

/-- Model of `d.get(k, dflt)`: the bound value (even if `None`), or `dflt`. -/
def pvGetD (d : List (String × PyVal)) (k : String) (dflt : PyVal) : PyVal :=
  match d.find? (fun kv => decide (kv.1 = k)) with
  | some kv => kv.2
  | Option.none => dflt

/-- Reads a metadata value where the source then applies a string method
(e.g. `.lower()`); a non-string value would raise `TypeError` in Python, we
return `""` there (all reachable values are strings). -/
def pvAsString : PyVal → String
  | .str s => s
  | _ => ""

/-- Model of Python `str(value)` as used in f-string interpolation of
metadata values (only strings, ints and `None` are interpolated in the
reachable code paths). -/
def pvFormat : PyVal → String
  | .str s => s
  | .int n => Int.repr n
  | .none => "None"
  | .list l => String.intercalate ", " l

/-- Truthiness of `d.get(k)` for an optional string field of a record
(`if batch.get("cost"):` style guards): present and non-empty. -/
def optTruthy (o : Option String) : Bool := o.getD "" ≠ ""

/-- The string value of an optional field, `""` when absent. -/
def optStr (o : Option String) : String := o.getD ""

/-- An optional record field as the Python value `d.get(k)`: the string, or
`None` when the key is absent. -/
def optPv : Option String → PyVal
  | Option.none => PyVal.none
  | some s => PyVal.str s

/-! ### Data model: CourseRecord and Chunk (`src/processor/chunker.py`) -/

/-- The `cohort` group of a scraped course record; `none` models a missing
key. -/
structure CohortData where
  cohort_name : Option String
  cohort_description : Option String
deriving DecidableEq, Repr

/-- The `batch` group: start date, cost and course type. -/
structure BatchData where
  batch_start_date : Option String
  cost : Option String
  course_type : Option String
deriving DecidableEq, Repr

/-- The `mentors_instructors` group: two lists of names. -/
structure MentorsData where
  instructors : List String
  mentors : List String
deriving DecidableEq, Repr

/-- One scraped course record as consumed by
`CourseChunker.chunk_course_data`.  The source reads the nested groups via
`.get` chains with empty-dict/list defaults; `curriculum` here is the inner
`course_data["curriculum"]["curriculum"]` list, `emi_options` the inner
`course_data["payment_options"]["emi_options"]` list, `placement_text` the
inner `course_data["placements"]["placement_text"]` value, and `reviews` the
inner `course_data["reviews"]["reviews"]` list. -/
structure CourseRecord where
  source_url : Option String
  cohort : CohortData
  batch : BatchData
  emi_options : List String
  curriculum : List String
  mentors_instructors : MentorsData
  placement_text : Option String
  reviews : List String
deriving DecidableEq, Repr

/-- An emitted chunk: content text plus a metadata dict. -/
structure Chunk where
  content : String
  metadata : List (String × PyVal)
deriving DecidableEq, Repr

/-- `cohort_name = course_data.get("cohort", {}).get("cohort_name", "Unknown")`. -/
def cohortName (r : CourseRecord) : String := r.cohort.cohort_name.getD "Unknown"

/-- `source_url = course_data.get("source_url", "")`. -/
def sourceUrl (r : CourseRecord) : String := r.source_url.getD ""

/-- `cohort_text` as assembled by the chunker before stripping. -/
def cohortText (r : CourseRecord) : String :=
  "Cohort: " ++ optStr r.cohort.cohort_name ++ "\n" ++
    "Description: " ++ optStr r.cohort.cohort_description

/-- Chunk 1 (cohort information): emitted when `cohort_text.strip()` is
truthy. -/
def cohortChunks (r : CourseRecord) : List Chunk :=
  if pyStrip (cohortText r) ≠ "" then
    [{ content := pyStrip (cohortText r),
       metadata := [("type", PyVal.str "cohort"),
                    ("cohort_name", PyVal.str (cohortName r)),
                    ("source_url", PyVal.str (sourceUrl r)),
                    ("field", PyVal.str "cohort_info")] }]
  else []

/-- The fixed prefix `f"Batch Information for {cohort_name}:\n"` of the batch
chunk text. -/
def batchHeader (r : CourseRecord) : String :=
  "Batch Information for " ++ cohortName r ++ ":\n"

/-- `batch_text`: the header plus one line per present field. -/
def batchText (r : CourseRecord) : String :=
  batchHeader r ++
    (if optTruthy r.batch.batch_start_date then
        "Start Date: " ++ optStr r.batch.batch_start_date ++ "\n" else "") ++
    (if optTruthy r.batch.cost then "Cost: " ++ optStr r.batch.cost ++ "\n" else "") ++
    (if optTruthy r.batch.course_type then
        "Course Type: " ++ optStr r.batch.course_type else "")

/-- Chunk 2 (batch information): guarded by
`batch_text.strip() and len(batch_text.strip()) > len(f"Batch Information for {cohort_name}:\n")`. -/
def batchChunks (r : CourseRecord) : List Chunk :=
  if pyStrip (batchText r) ≠ "" ∧ (pyStrip (batchText r)).length > (batchHeader r).length then
    [{ content := pyStrip (batchText r),
       metadata := [("type", PyVal.str "batch"),
                    ("cohort_name", PyVal.str (cohortName r)),
                    ("source_url", PyVal.str (sourceUrl r)),
                    ("field", PyVal.str "batch_info"),
                    ("cost", optPv r.batch.cost),
                    ("batch_start_date", optPv r.batch.batch_start_date),
                    ("course_type", optPv r.batch.course_type)] }]
  else []

/-- `payment_text`: the two header lines plus one `- {emi}` line per option. -/
def paymentText (r : CourseRecord) : String :=
  "Payment Options for " ++ cohortName r ++ ":\n" ++ "EMI Options:\n" ++
    String.join (r.emi_options.map (fun emi => "- " ++ emi ++ "\n"))

/-- Payment chunk: emitted when `payment_options.get("emi_options")` is truthy
and (inner guard) the stripped text is truthy. -/
def paymentChunks (r : CourseRecord) : List Chunk :=
  if r.emi_options ≠ [] then
    if pyStrip (paymentText r) ≠ "" then
      [{ content := pyStrip (paymentText r),
         metadata := [("type", PyVal.str "payment"),
                      ("cohort_name", PyVal.str (cohortName r)),
                      ("source_url", PyVal.str (sourceUrl r)),
                      ("field", PyVal.str "payment_options"),
                      ("emi_options", PyVal.list r.emi_options)] }]
    else []
  else []

/-- Chunk 3 (curriculum): one chunk per item via
`for idx, item in enumerate(curriculum_items)`; the surrounding
`if curriculum_items:` guard is the identity on the resulting list. -/
def curriculumChunks (r : CourseRecord) : List Chunk :=
  r.curriculum.enum.map (fun p =>
    { content := "Curriculum for " ++ cohortName r ++ ": " ++ p.2,
      metadata := [("type", PyVal.str "curriculum"),
                   ("cohort_name", PyVal.str (cohortName r)),
                   ("source_url", PyVal.str (sourceUrl r)),
                   ("field", PyVal.str "curriculum"),
                   ("item_index", PyVal.int p.1)] })

/-- `mentors_text` as assembled before stripping. -/
def mentorsText (r : CourseRecord) : String :=
  "Instructors and Mentors for " ++ cohortName r ++ ":\n" ++
    (if r.mentors_instructors.instructors ≠ [] then
        "Instructors: " ++ String.intercalate ", " r.mentors_instructors.instructors ++ "\n"
     else "") ++
    (if r.mentors_instructors.mentors ≠ [] then
        "Mentors: " ++ String.intercalate ", " r.mentors_instructors.mentors
     else "")

/-- Chunk 4 (mentors/instructors): emitted when either list is non-empty. -/
def mentorsChunks (r : CourseRecord) : List Chunk :=
  if r.mentors_instructors.instructors ≠ [] ∨ r.mentors_instructors.mentors ≠ [] then
    [{ content := pyStrip (mentorsText r),
       metadata := [("type", PyVal.str "mentors_instructors"),
                    ("cohort_name", PyVal.str (cohortName r)),
                    ("source_url", PyVal.str (sourceUrl r)),
                    ("field", PyVal.str "mentors_instructors"),
                    ("instructors", PyVal.list r.mentors_instructors.instructors),
                    ("mentors", PyVal.list r.mentors_instructors.mentors)] }]
  else []

/-- Chunk 5 (placements): emitted when `placement_text` is truthy. -/
def placementsChunks (r : CourseRecord) : List Chunk :=
  if optTruthy r.placement_text then
    [{ content := "Placement Information for " ++ cohortName r ++ ": " ++
                    optStr r.placement_text,
       metadata := [("type", PyVal.str "placements"),
                    ("cohort_name", PyVal.str (cohortName r)),
                    ("source_url", PyVal.str (sourceUrl r)),
                    ("field", PyVal.str "placements")] }]
  else []

/-- Chunk 6 (reviews): emitted when the reviews list is non-empty; content
joins at most the first 3 reviews. -/
def reviewsChunks (r : CourseRecord) : List Chunk :=
  if r.reviews ≠ [] then
    [{ content := "Reviews for " ++ cohortName r ++ ": " ++
                    String.intercalate "\n" (r.reviews.take 3),
       metadata := [("type", PyVal.str "reviews"),
                    ("cohort_name", PyVal.str (cohortName r)),
                    ("source_url", PyVal.str (sourceUrl r)),
                    ("field", PyVal.str "reviews")] }]
  else []

/-- `CourseChunker.chunk_course_data`: the chunks appended in source order. -/
def chunk_course_data (r : CourseRecord) : List Chunk :=
  cohortChunks r ++ batchChunks r ++ paymentChunks r ++ curriculumChunks r ++
    mentorsChunks r ++ placementsChunks r ++ reviewsChunks r

/-! ### Conversation memory (`src/query/conversation_memory.py`) -/

/-- One stored message; `timestamp` is supplied by the caller of the model
(it stands for `datetime.now().isoformat()`). -/
structure Message where
  role : String
  content : String
  timestamp : String
  metadata : List (String × PyVal)
deriving DecidableEq, Repr

/-- `ConversationMemory`: the configured bound and the
`session_id -> deque` map (`none` models an absent session). -/
structure ConversationMemory where
  max_messages : Nat
  conversations : String → Option (List Message)

/-- The last `n` elements of a list, oldest first: the contents of a
`deque(maxlen := n)` after appending the elements of `l` in order. -/
def takeLast (l : List α) (n : Nat) : List α := (l.reverse.take n).reverse

/-- A fresh memory (`ConversationMemory(max_messages)`). -/
def emptyMemory (maxMessages : Nat) : ConversationMemory :=
  ⟨maxMessages, fun _ => Option.none⟩

/-- `ConversationMemory.add_message`: lazily create the session deque, append
the message, evicting the oldest once the size exceeds the bound. -/
def add_message (m : ConversationMemory) (session_id role content : String)
    (metadata : Option (List (String × PyVal))) (now : String) : ConversationMemory :=
  let cur := (m.conversations session_id).getD []
  let msg : Message := ⟨role, content, now, metadata.getD []⟩
  { m with
    conversations := fun s =>
      if s = session_id then some (takeLast (cur ++ [msg]) m.max_messages)
      else m.conversations s }

/-- Python `l[k:]` for a possibly negative start index. -/
def pySliceFrom (l : List α) (k : Int) : List α :=
  if k < 0 then l.drop ((l.length + k).toNat) else l.drop k.toNat

/-- `ConversationMemory.get_history`: the session history, tail-sliced to
`history[-last_n:]` only when `last_n` is truthy (`if last_n:`). -/
def get_history (m : ConversationMemory) (session_id : String)
    (last_n : Option Int) : List Message :=
  match m.conversations session_id with
  | Option.none => []
  | some history =>
    match last_n with
    | some n => if n ≠ 0 then pySliceFrom history (-n) else history
    | Option.none => history

/-- One recorded `add_message` invocation, for reasoning about call
sequences. -/
structure MemCall where
  session_id : String
  role : String
  content : String
  metadata : Option (List (String × PyVal))
  now : String
deriving DecidableEq, Repr

/-- The message a call appends. -/
def msgOf (c : MemCall) : Message := ⟨c.role, c.content, c.now, c.metadata.getD []⟩

/-- Replay a sequence of `add_message` calls. -/
def applyCalls (m : ConversationMemory) (calls : List MemCall) : ConversationMemory :=
  calls.foldl (fun acc c => add_message acc c.session_id c.role c.content c.metadata c.now) m

/-! ### Vector store wrapper (`src/embeddings/vector_db.py`) -/

/-- The arguments `VectorDB.add_chunks` passes to `collection.add`. -/
structure AddCall where
  ids : List String
  embeddings : List (List Int)
  documents : List String
  metadatas : List (List (String × PyVal))
deriving DecidableEq, Repr

/-- ChromaDB metadata normalization: lists become comma-joined strings,
`None` becomes the empty string, scalars pass through. -/
def normalizeValue : PyVal → PyVal
  | .list l => .str (String.intercalate ", " l)
  | .none => .str ""
  | v => v

/-- Normalize every value of a metadata dict. -/
def normalizeMetadata (md : List (String × PyVal)) : List (String × PyVal) :=
  md.map (fun kv => (kv.1, normalizeValue kv.2))

/-- `VectorDB.add_chunks`: raises `ValueError` on an arity mismatch,
otherwise builds position-based ids and the normalized payload for
`collection.add`.  Embedding vectors are opaque here (the code never reads
their components). -/
def add_chunks (chunks : List Chunk) (embeddings : List (List Int)) :
    Except String AddCall :=
  if chunks.length ≠ embeddings.length then
    .error "Number of chunks must match number of embeddings"
  else
    .ok { ids := (List.range chunks.length).map (fun i => "chunk_" ++ Nat.repr i),
          embeddings := embeddings,
          documents := chunks.map Chunk.content,
          metadatas := chunks.map (fun c => normalizeMetadata c.metadata) }

/-! ### Retrieval and ranking (`src/query/query_handler.py`) -/

/-- One formatted search result inside `retrieve_context`: content, metadata,
distance (the distance is never inspected by the ranking logic; it is kept
opaque). -/
structure Ctx where
  content : String
  metadata : List (String × PyVal)
  distance : PyVal
deriving DecidableEq, Repr

/-- The `type` metadata of a context. -/
def ctxType (c : Ctx) : PyVal := pvGet c.metadata "type"

/-- Keywords triggering the batch boost. -/
def batchKeywords : List String := ["start", "date", "when", "cost", "price", "fee"]

/-- Keywords triggering the payment boost. -/
def emiKeywords : List String := ["emi", "installment", "payment", "pay"]

/-- The course-filter step: stable partition on
`course_filter.lower() in metadata.get("cohort_name", "").lower()`. -/
def courseFilterStep (course_filter : Option String) (contexts : List Ctx) : List Ctx :=
  match course_filter with
  | some cf =>
      contexts.filter (fun c =>
        strContains (pyLower (pvAsString (pvGetD c.metadata "cohort_name" (PyVal.str "")))) (pyLower cf)) ++
      contexts.filter (fun c =>
        !strContains (pyLower (pvAsString (pvGetD c.metadata "cohort_name" (PyVal.str "")))) (pyLower cf))
  | Option.none => contexts

/-- The batch boost: move `type == "batch"` chunks to the front when the
query mentions a date/cost keyword. -/
def batchBoostStep (query_lower : String) (contexts : List Ctx) : List Ctx :=
  if batchKeywords.any (fun k => strContains query_lower k) then
    contexts.filter (fun c => decide (ctxType c = PyVal.str "batch")) ++
    contexts.filter (fun c => decide (ctxType c ≠ PyVal.str "batch"))
  else contexts

/-- The payment boost: payment chunks first, then batch, then the rest, when
the query mentions an EMI/payment keyword. -/
def emiBoostStep (query_lower : String) (contexts : List Ctx) : List Ctx :=
  if emiKeywords.any (fun k => strContains query_lower k) then
    contexts.filter (fun c => decide (ctxType c = PyVal.str "payment")) ++
    contexts.filter (fun c => decide (ctxType c = PyVal.str "batch")) ++
    contexts.filter (fun c =>
      decide (ctxType c ≠ PyVal.str "payment" ∧ ctxType c ≠ PyVal.str "batch"))
  else contexts

/-- `QueryHandler.retrieve_context` after the vector search: the formatted
candidate list (`search_contexts`, the over-fetched `max(2n, 20)` raw
results) is course-filtered, intent-reordered, and truncated to
`n_results`.  The embedding and search calls are external capabilities and
appear here as the already-formatted candidate list. -/
def retrieve_context (query : String) (n_results : Nat) (course_filter : Option String)
    (search_contexts : List Ctx) : List Ctx :=
  let query_lower := pyLower query
  (emiBoostStep query_lower
    (batchBoostStep query_lower
      (courseFilterStep course_filter search_contexts))).take n_results

/-! ### Answer generation (`src/query/llm_handler.py`) -/

/-- The external generation capability (`self.model.generate_content`):
either the generated text or a raised error message. -/
structure LLM where
  gen : String → Except String String

/-- The `Context {i+1}:` text over the top 5 contexts. -/
def contextText (contexts : List Ctx) : String :=
  String.intercalate "\n\n"
    ((contexts.take 5).enum.map (fun p => "Context " ++ Nat.repr (p.1 + 1) ++ ":\n" ++ p.2.content))

/-- The optional previous-conversation section of the prompt. -/
def historySection (conversation_history : String) : String :=
  if conversation_history ≠ "" then
    "\n\nPrevious Conversation:\n" ++ conversation_history ++
      "\n\nIMPORTANT: Use the previous conversation to understand context. If the user says \x27the course\x27 or \x27it\x27, they are referring to the course mentioned in the previous conversation."
  else ""

/-- The full prompt of `GeminiLLMHandler.generate_answer`. -/
def buildPrompt (query : String) (contexts : List Ctx) (source_url : PyVal)
    (conversation_history : String) : String :=
  "You are a helpful FAQ assistant for Nextleap courses. Answer questions based ONLY on the provided context from Nextleap\x27s official website.\n\nIMPORTANT RULES:\n1. Answer ONLY using information from the provided context\n2. If the information is not in the context, say \"I don\x27t have that information available\"\n3. Be concise and factual - no advice, only facts\n4. Always mention the source URL at the end: Source: " ++
    pvFormat source_url ++
    "\n5. If asked about price, format it as ₹X,XXX\n6. If asked about dates and the date is not available, clearly state that\n7. Use conversation history to understand context - if user says \"the course\" or \"it\", refer to the course from previous conversation\n8. If asked about EMI or payment options, provide ALL available EMI plans from the context\n9. Make sure to answer about the SAME course mentioned in previous conversation if user refers to \"the course\" or \"it\"\n\nContext from Nextleap website:\n" ++
    contextText contexts ++ historySection conversation_history ++
    "\n\nUser Question: " ++ query ++ "\n\nAnswer (be concise and factual):"

/-- `if source_url and source_url not in answer: answer += f"\n\nSource: {source_url}"`. -/
def appendSourceIfMissing (answer : String) (source_url : PyVal) : String :=
  if source_url.truthy && !strContains answer (pvAsString source_url) then
    answer ++ "\n\nSource: " ++ pvFormat source_url
  else answer

/-- The quota/rate-limit error test:
`"quota" in error_msg.lower() or "429" in error_msg`. -/
def quotaShaped (error_msg : String) : Bool :=
  strContains (pyLower error_msg) "quota" || strContains error_msg "429"

/-- The EMI lines pulled out of a payment chunk content:
stripped lines starting with `-` whose raw line mentions `₹` or `EMI`. -/
def emiLinesOf (content : String) : List String :=
  (content.splitOn "\n").filterMap (fun line =>
    if strStartsWith (pyStrip line) "-" && (strContains line "₹" || strContains line "EMI") then
      some (pyStrip line)
    else Option.none)

/-- The comma-split, stripped, non-empty entries of a serialized
`emi_options` metadata string. -/
def emiListOf (s : String) : List String :=
  (s.splitOn ",").filterMap (fun e =>
    if pyStrip e ≠ "" then some (pyStrip e) else Option.none)

/-- The `for ctx in contexts:` loop of the EMI branch of
`_extract_from_context`: the answer parts appended by the first payment
context that yields EMI lines (from content, else from metadata), `[]` when
the loop falls through. -/
def emiScan : List Ctx → List String
  | [] => []
  | ctx :: rest =>
    if pvGet ctx.metadata "type" = PyVal.str "payment" then
      if strContains ctx.content "EMI Options" then
        if emiLinesOf ctx.content ≠ [] then
          "EMI Options available:" :: emiLinesOf ctx.content
        else emiScan rest
      else if (pvGet ctx.metadata "emi_options").truthy then
        match pvGet ctx.metadata "emi_options" with
        | PyVal.str s =>
          if s ≠ "" then
            if emiListOf s ≠ [] then
              "EMI Options available:" :: (emiListOf s).map (fun emi => "- " ++ emi)
            else emiScan rest
          else emiScan rest
        | _ => emiScan rest
      else emiScan rest
    else emiScan rest

/-- Join the answer parts and append the source citation when truthy. -/
def finishAnswer (parts : List String) (source_url : PyVal) : String :=
  let answer := String.intercalate ". " parts
  if source_url.truthy then answer ++ "\n\nSource: " ++ pvFormat source_url
  else answer

/-- The tail of `_extract_from_context`: default to the (truncated) first
chunk content when no part matched, join, cite.  `none` models the
`IndexError` of `contexts[0]` on an empty list. -/
def extractFinish (parts : List String) (contexts : List Ctx) (source_url : PyVal) :
    Option String :=
  match parts, contexts with
  | [], [] => Option.none
  | [], c :: _ => some (finishAnswer [strTake c.content 200] source_url)
  | p :: ps, _ => some (finishAnswer (p :: ps) source_url)

/-- `GeminiLLMHandler._extract_from_context`: deterministic extraction used
when generation hits a quota error.  Returns `none` exactly where Python
would raise (`contexts[0]` on an empty list). -/
def extract_from_context (query : String) (contexts : List Ctx) (source_url : PyVal)
    (conversation_history : String) : Option String :=
  let query_lower := pyLower query
  let emiParts :=
    if ["emi", "installment", "payment"].any (fun k => strContains query_lower k) then
      emiScan contexts
    else []
  let priceParts :=
    if strContains query_lower "price" || strContains query_lower "cost" then
      match contexts.find? (fun c => (pvGet c.metadata "cost").truthy) with
      | some c => ["The cost is ₹" ++ pvFormat (pvGet c.metadata "cost")]
      | Option.none => []
    else []
  let parts1 := emiParts ++ priceParts
  let parts2 :=
    if strContains query_lower "date" || strContains query_lower "start" then
      let dateParts :=
        match contexts.find? (fun c =>
            (pvGet c.metadata "batch_start_date").truthy &&
              decide (pvGet c.metadata "batch_start_date" ≠ PyVal.str "null")) with
        | some c => ["The batch starts on " ++ pvFormat (pvGet c.metadata "batch_start_date")]
        | Option.none => []
      let withDate := parts1 ++ dateParts
      if withDate.any (fun part => strContains part "starts") then withDate
      else withDate ++ ["The batch start date is not currently available on the website"]
    else parts1
  extractFinish parts2 contexts source_url

/-- `GeminiLLMHandler.generate_answer`: delegate to the generation
capability; on a quota-shaped error fall back to deterministic extraction,
on any other error return the apologetic message. -/
def generate_answer (llm : LLM) (query : String) (contexts : List Ctx)
    (source_url : PyVal) (conversation_history : String) : Option String :=
  match llm.gen (buildPrompt query contexts source_url conversation_history) with
  | .ok text => some (appendSourceIfMissing (pyStrip text) source_url)
  | .error e =>
    if quotaShaped e then extract_from_context query contexts source_url conversation_history
    else some ("I encountered an error while generating the answer. Please try again. Error: " ++ e)

/-! ### Answer composition (`QueryHandler.format_answer`) -/

/-- The tail of `_extract_answer_simple`: default to the first chunk content
when no part matched, join, cite.  `none` models the `IndexError` of
`contexts[0]` on an empty list. -/
def simpleFinish (parts : List String) (contexts : List Ctx) (source_url : PyVal) :
    Option String :=
  match parts, contexts with
  | [], [] => Option.none
  | [], c :: _ => some (finishAnswer [c.content] source_url)
  | p :: ps, _ => some (finishAnswer (p :: ps) source_url)

/-- `QueryHandler._extract_answer_simple`: the no-LLM fallback. -/
def extract_answer_simple (query : String) (contexts : List Ctx)
    (source_url : PyVal) : Option String :=
  let query_lower := pyLower query
  let priceParts :=
    if strContains query_lower "price" || strContains query_lower "cost" then
      match contexts.find? (fun c => (pvGet c.metadata "cost").truthy) with
      | some c => ["The cost is ₹" ++ pvFormat (pvGet c.metadata "cost")]
      | Option.none => []
    else []
  let dateParts :=
    if strContains query_lower "date" || strContains query_lower "start" then
      match contexts.find? (fun c =>
          (pvGet c.metadata "batch_start_date").truthy &&
            decide (pvGet c.metadata "batch_start_date" ≠ PyVal.str "null")) with
      | some c => ["The batch starts on " ++ pvFormat (pvGet c.metadata "batch_start_date")]
      | Option.none => ["The batch start date is not currently available"]
    else []
  simpleFinish (priceParts ++ dateParts) contexts source_url

/-- The `{answer, source_url, contexts_used}` dict returned by
`format_answer`; the empty-retrieval branch carries no `contexts_used` key. -/
structure AnswerResult where
  answer : String
  source_url : PyVal
  contexts_used : Option Nat
deriving DecidableEq, Repr

/-- `QueryHandler.format_answer`: empty-retrieval message, source attribution
from the first ranked chunk, LLM generation or simple extraction.  `none`
models an uncaught Python exception. -/
def format_answer (llm_handler : Option LLM) (query : String) (contexts : List Ctx)
    (conversation_history : String) : Option AnswerResult :=
  match contexts with
  | [] =>
    some { answer := "I couldn\x27t find relevant information to answer your question.",
           source_url := PyVal.none, contexts_used := Option.none }
  | best :: rest =>
    let source_url := pvGet best.metadata "source_url"
    let answer? :=
      match llm_handler with
      | some llm => generate_answer llm query (best :: rest) source_url conversation_history
      | Option.none => extract_answer_simple query (best :: rest) source_url
    match answer? with
    | some answer =>
      some { answer := answer, source_url := source_url,
             contexts_used := some (best :: rest).length }
    | Option.none => Option.none

/-- Rank of a context under the payment boost: payment chunks first, batch
chunks second, everything else last. -/
def typeRank (c : Ctx) : Nat :=
  if ctxType c = PyVal.str "payment" then 0
  else if ctxType c = PyVal.str "batch" then 1
  else 2

/-- Decimal digit list of a natural number (most significant first);
a structural counterpart of core's fuel-based `Nat.toDigitsCore`. -/
def natToDigits (n : Nat) : List Char :=
  if _h : n < 10 then [Nat.digitChar n]
  else natToDigits (n / 10) ++ [Nat.digitChar (n % 10)]
decreasing_by exact Nat.div_lt_self (by omega) (by omega)

/-- Base-10 valuation of a digit-character list, left inverse of
`natToDigits`. -/
def digitsToNat (l : List Char) : Nat :=
  l.foldl (fun acc c => acc * 10 + (c.toNat - 48)) 0

example :
    chunk_course_data
      { source_url := some "https://x/y",
        cohort := ⟨Option.none, Option.none⟩,
        batch := ⟨some "Jan 3", some "49,999", Option.none⟩,
        emi_options := [], curriculum := [], mentors_instructors := ⟨[], []⟩,
        placement_text := Option.none, reviews := [] } =
    [{ content := "Cohort: \nDescription:",
       metadata := [("type", PyVal.str "cohort"), ("cohort_name", PyVal.str "Unknown"),
                    ("source_url", PyVal.str "https://x/y"), ("field", PyVal.str "cohort_info")] },
     { content := "Batch Information for Unknown:\nStart Date: Jan 3\nCost: 49,999",
       metadata := [("type", PyVal.str "batch"), ("cohort_name", PyVal.str "Unknown"),
                    ("source_url", PyVal.str "https://x/y"), ("field", PyVal.str "batch_info"),
                    ("cost", PyVal.str "49,999"), ("batch_start_date", PyVal.str "Jan 3"),
                    ("course_type", PyVal.none)] }] := by decide

/-! ### Helper lemmas -/

theorem string_mk_ne_empty {l : List Char} (h : l ≠ []) : (⟨l⟩ : String) ≠ "" := by
  intro he
  exact h (by simpa using congrArg String.data he)

theorem dropWhile_append_singleton_ne_nil {p : Char → Bool} {c : Char}
    (hc : p c = false) : ∀ xs : List Char, (xs ++ [c]).dropWhile p ≠ [] := by
  intro xs
  induction xs with
  | nil => simp [List.dropWhile, hc]
  | cons x t ih =>
    by_cases hx : p x
    · simpa [List.dropWhile, hx] using ih
    · simp [List.dropWhile, hx]

theorem pyStrip_ne_empty_of_head {s : String} {c : Char} {t : List Char}
    (hd : s.data = c :: t) (hc : c.isWhitespace = false) : pyStrip s ≠ "" := by
  rw [pyStrip, hd]
  apply string_mk_ne_empty
  rw [List.dropWhile_cons_of_neg (by simp [hc])]
  simp only [List.reverse_cons]
  intro he
  exact dropWhile_append_singleton_ne_nil hc t.reverse (by simpa using congrArg List.reverse he)

theorem string_length_data (s : String) : s.length = s.data.length := rfl

theorem pyStrip_length_le (s : String) : (pyStrip s).length ≤ s.length := by
  rw [pyStrip, string_length_data, string_length_data]
  simp only [List.length_reverse]
  calc ((s.data.dropWhile Char.isWhitespace).reverse.dropWhile Char.isWhitespace).length
      ≤ (s.data.dropWhile Char.isWhitespace).reverse.length :=
        (List.dropWhile_sublist _).length_le
    _ = (s.data.dropWhile Char.isWhitespace).length := List.length_reverse _
    _ ≤ s.data.length := (List.dropWhile_sublist _).length_le

theorem digitChar_toNat_sub {m : Nat} (h : m < 10) : (Nat.digitChar m).toNat - 48 = m := by
  interval_cases m <;> rfl

theorem digitsToNat_natToDigits (n : Nat) : digitsToNat (natToDigits n) = n := by
  induction n using Nat.strong_induction_on with
  | _ n ih =>
    rw [natToDigits]
    by_cases h : n < 10
    · simp only [h, dite_true]
      simp [digitsToNat, digitChar_toNat_sub h]
    · simp only [h, dite_false]
      rw [digitsToNat, List.foldl_append]
      have h10 : n / 10 < n := Nat.div_lt_self (by omega) (by omega)
      have ihv := ih (n / 10) h10
      rw [digitsToNat] at ihv
      simp only [List.foldl_cons, List.foldl_nil, ihv]
      rw [digitChar_toNat_sub (Nat.mod_lt _ (by omega))]
      omega

theorem natToDigits_injective : Function.Injective natToDigits := by
  intro a b h
  have := congrArg digitsToNat h
  simpa [digitsToNat_natToDigits] using this

theorem toDigitsCore_eq_natToDigits (f : Nat) : ∀ (n : Nat) (ds : List Char), n < f →
    Nat.toDigitsCore 10 f n ds = natToDigits n ++ ds := by
  induction f with
  | zero => intro n ds h; omega
  | succ f ih =>
    intro n ds h
    rw [Nat.toDigitsCore]
    by_cases hz : n / 10 = 0
    · have hn : n < 10 := by omega
      simp only [hz, if_true]
      rw [natToDigits]
      simp [hn, Nat.mod_eq_of_lt hn]
    · have hn : ¬ n < 10 := by
        intro hlt
        exact hz (Nat.div_eq_of_lt hlt)
      simp only [hz, if_false]
      have hlt : n / 10 < f := by
        have : n / 10 < n := Nat.div_lt_self (by omega) (by omega)
        omega
      rw [ih (n / 10) _ hlt]
      conv_rhs => rw [natToDigits]
      simp [hn, List.append_assoc]

theorem repr_eq_natToDigits (n : Nat) : Nat.repr n = (natToDigits n).asString := by
  rw [Nat.repr, Nat.toDigits, toDigitsCore_eq_natToDigits (n + 1) n [] (by omega)]
  simp

theorem natRepr_injective : Function.Injective Nat.repr := by
  intro a b h
  rw [repr_eq_natToDigits, repr_eq_natToDigits] at h
  apply natToDigits_injective
  simpa [List.asString] using congrArg String.data h

theorem chunkId_injective : Function.Injective (fun i : Nat => "chunk_" ++ Nat.repr i) := by
  intro a b h
  simp only at h
  have hd := congrArg String.data h
  simp only [String.data_append] at hd
  exact natRepr_injective (String.ext (List.append_cancel_left hd))

theorem typeRank_eq_zero {c : Ctx} (h : ctxType c = PyVal.str "payment") :
    typeRank c = 0 := by
  simp [typeRank, h]

theorem typeRank_eq_one {c : Ctx} (h : ctxType c = PyVal.str "batch") :
    typeRank c = 1 := by
  have hne : ¬ ctxType c = PyVal.str "payment" := by simp [h]
  simp [typeRank, h, hne]

theorem emiBoost_pairwise_rank (l : List Ctx) :
    ((l.filter (fun c => decide (ctxType c = PyVal.str "payment"))) ++
      (l.filter (fun c => decide (ctxType c = PyVal.str "batch"))) ++
      (l.filter (fun c =>
        decide (ctxType c ≠ PyVal.str "payment" ∧ ctxType c ≠ PyVal.str "batch")))).Pairwise
      (fun a b => typeRank a ≤ typeRank b) := by
  have hP : ∀ c ∈ l.filter (fun c => decide (ctxType c = PyVal.str "payment")),
      typeRank c = 0 := by
    intro c hc
    exact typeRank_eq_zero (of_decide_eq_true (List.mem_filter.mp hc).2)
  have hB : ∀ c ∈ l.filter (fun c => decide (ctxType c = PyVal.str "batch")),
      typeRank c = 1 := by
    intro c hc
    exact typeRank_eq_one (of_decide_eq_true (List.mem_filter.mp hc).2)
  have hrank2 : ∀ c : Ctx, typeRank c ≤ 2 := by
    intro c
    rw [typeRank]
    split
    · omega
    · split <;> omega
  rw [List.pairwise_append]
  refine ⟨?_, ?_, ?_⟩
  · rw [List.pairwise_append]
    refine ⟨?_, ?_, ?_⟩
    · exact List.pairwise_of_forall_mem_list (fun a ha b hb => by
        rw [hP a ha, hP b hb])
    · exact List.pairwise_of_forall_mem_list (fun a ha b hb => by
        rw [hB a ha, hB b hb])
    · intro a ha b hb
      rw [hP a ha, hB b hb]
      omega
  · exact List.pairwise_of_forall_mem_list (fun a ha b hb => by
      have h1 := of_decide_eq_true (List.mem_filter.mp ha).2
      have h2 := of_decide_eq_true (List.mem_filter.mp hb).2
      simp [typeRank, h1.1, h1.2, h2.1, h2.2])
  · intro a ha b hb
    have hb2 : typeRank b = 2 := by
      have := of_decide_eq_true (List.mem_filter.mp hb).2
      simp [typeRank, this.1, this.2]
    rw [hb2]
    exact hrank2 a

/-- C1: for every over-fetched candidate list containing at least one
payment-type and one batch-type chunk, and every query containing an
EMI/payment keyword, the `retrieve_context` result lists all payment-type
chunks before all batch-type chunks, which precede all other chunks, in the
first `n_results` entries — regardless of the course filter and of the batch
boost, since the payment reordering is applied last. -/
theorem retrieve_context_emi_boost (query : String) (n : Nat)
    (cf : Option String) (cands : List Ctx)
    (hpay : ∃ c ∈ cands, ctxType c = PyVal.str "payment")
    (hbatch : ∃ c ∈ cands, ctxType c = PyVal.str "batch")
    (hq : emiKeywords.any (fun k => strContains (pyLower query) k) = true) :
    (retrieve_context query n cf cands).Pairwise
      (fun a b => typeRank a ≤ typeRank b) := by
  simp only [retrieve_context, emiBoostStep, hq, if_true]
  exact ((emiBoost_pairwise_rank _).sublist (List.take_sublist _ _))

theorem retrieve_context_emi_boost_witness :
    (∃ c ∈ [Ctx.mk "p" [("type", PyVal.str "payment")] PyVal.none,
            Ctx.mk "b" [("type", PyVal.str "batch")] PyVal.none],
        ctxType c = PyVal.str "payment") ∧
    (∃ c ∈ [Ctx.mk "p" [("type", PyVal.str "payment")] PyVal.none,
            Ctx.mk "b" [("type", PyVal.str "batch")] PyVal.none],
        ctxType c = PyVal.str "batch") ∧
    (emiKeywords.any (fun k => strContains (pyLower "What EMI plans exist?") k) = true) ∧
    (retrieve_context "What EMI plans exist?" 3 Option.none
        [Ctx.mk "p" [("type", PyVal.str "payment")] PyVal.none,
         Ctx.mk "b" [("type", PyVal.str "batch")] PyVal.none]).Pairwise
      (fun a b => typeRank a ≤ typeRank b) :=
  ⟨by decide, by decide, by decide,
    retrieve_context_emi_boost _ 3 Option.none _ (by decide) (by decide) (by decide)⟩

theorem takeLast_length_le (l : List α) (n : Nat) : (takeLast l n).length ≤ n := by
  simp [takeLast]

theorem take_append_take (n : Nat) (a b : List α) :
    (a ++ b.take n).take n = (a ++ b).take n := by
  rw [List.take_append_eq_append_take, List.take_append_eq_append_take, List.take_take]
  congr 1
  exact congrArg (fun m => b.take m) (Nat.min_eq_left (Nat.sub_le n a.length))

theorem takeLast_takeLast_append (xs ys : List α) (n : Nat) :
    takeLast (takeLast xs n ++ ys) n = takeLast (xs ++ ys) n := by
  simp only [takeLast, List.reverse_append, List.reverse_reverse]
  rw [take_append_take]

theorem takeLast_idem (l : List α) (n : Nat) : takeLast (takeLast l n) n = takeLast l n := by
  have := takeLast_takeLast_append l [] n
  simpa using this

theorem get_history_none_eq (m : ConversationMemory) (s : String) :
    get_history m s Option.none = (m.conversations s).getD [] := by
  rw [get_history]
  cases m.conversations s <;> rfl

theorem applyCalls_stored (maxm : Nat) (s : String) :
    ∀ (calls : List MemCall) (m : ConversationMemory),
      m.max_messages = maxm →
      (m.conversations s).getD [] = takeLast ((m.conversations s).getD []) maxm →
      ((applyCalls m calls).conversations s).getD []
        = takeLast (((m.conversations s).getD []) ++
            ((calls.filter (fun c => decide (c.session_id = s))).map msgOf)) maxm := by
  intro calls
  induction calls with
  | nil =>
    intro m _ hinv
    simpa [applyCalls] using hinv
  | cons c rest ih =>
    intro m hmax hinv
    have hstep : applyCalls m (c :: rest) =
        applyCalls (add_message m c.session_id c.role c.content c.metadata c.now) rest := by
      simp [applyCalls]
    rw [hstep]
    by_cases hcs : c.session_id = s
    · subst hcs
      have hconv : ((add_message m c.session_id c.role c.content c.metadata c.now).conversations c.session_id).getD []
          = takeLast (((m.conversations c.session_id).getD []) ++ [msgOf c]) maxm := by
        simp [add_message, hmax, msgOf]
      have := ih (add_message m c.session_id c.role c.content c.metadata c.now)
        (by simp [add_message, hmax]) (by rw [hconv, takeLast_idem])
      rw [this, hconv, takeLast_takeLast_append, List.append_assoc]
      simp
    · have hconv : ((add_message m c.session_id c.role c.content c.metadata c.now).conversations s).getD []
          = ((m.conversations s).getD []) := by
        have hne : ¬ s = c.session_id := fun h => hcs h.symm
        simp [add_message, hne]
      have := ih (add_message m c.session_id c.role c.content c.metadata c.now)
        (by simp [add_message, hmax]) (by rw [hconv]; exact hinv)
      rw [this, hconv]
      simp [hcs]

set_option maxRecDepth 16384 in
/-- C2: after any sequence of `add_message` calls, a session's stored history
is exactly the last `max_messages` of the messages added to that session
(oldest evicted first), hence holds at most `max_messages` messages; in
particular appending 25 messages to a session bounded by 20 leaves the most
recent 20, oldest first. -/
theorem add_message_memory_bound :
    (∀ (maxm : Nat) (calls : List MemCall) (s : String),
        get_history (applyCalls (emptyMemory maxm) calls) s Option.none
          = takeLast ((calls.filter (fun c => decide (c.session_id = s))).map msgOf) maxm
        ∧ (get_history (applyCalls (emptyMemory maxm) calls) s Option.none).length ≤ maxm)
    ∧ get_history
        (applyCalls (emptyMemory 20)
          ((List.range 25).map (fun i => MemCall.mk "s" "user" ("m" ++ Nat.repr i) Option.none "t")))
        "s" Option.none
      = ((List.range 25).map (fun i =>
          Message.mk "user" ("m" ++ Nat.repr i) "t" [])).drop 5 := by
  constructor
  · intro maxm calls s
    have heq : get_history (applyCalls (emptyMemory maxm) calls) s Option.none
        = takeLast ((calls.filter (fun c => decide (c.session_id = s))).map msgOf) maxm := by
      rw [get_history_none_eq]
      have := applyCalls_stored maxm s calls (emptyMemory maxm) rfl (by simp [emptyMemory, takeLast])
      simpa [emptyMemory] using this
    exact ⟨heq, heq ▸ takeLast_length_le _ _⟩
  · decide

theorem extractFinish_isSome (parts : List String) (c : Ctx) (rest : List Ctx)
    (src : PyVal) : (extractFinish parts (c :: rest) src).isSome = true := by
  cases parts <;> rfl

theorem simpleFinish_isSome (parts : List String) (c : Ctx) (rest : List Ctx)
    (src : PyVal) : (simpleFinish parts (c :: rest) src).isSome = true := by
  cases parts <;> rfl

theorem extract_from_context_isSome (query : String) (c : Ctx) (rest : List Ctx)
    (src : PyVal) (hist : String) :
    (extract_from_context query (c :: rest) src hist).isSome = true :=
  extractFinish_isSome _ c rest src

theorem extract_answer_simple_isSome (query : String) (c : Ctx) (rest : List Ctx)
    (src : PyVal) :
    (extract_answer_simple query (c :: rest) src).isSome = true :=
  simpleFinish_isSome _ c rest src

/-- C3: for every non-empty ranked chunk list, `format_answer` returns a
result (whatever the generation capability does), and its `source_url` is
the `source_url` metadata of the first ranked chunk. -/
theorem format_answer_source_attribution (llm_handler : Option LLM)
    (query conversation_history : String) (best : Ctx) (rest : List Ctx) :
    ∃ res, format_answer llm_handler query (best :: rest) conversation_history = some res ∧
      res.source_url = pvGet best.metadata "source_url" := by
  cases llm_handler with
  | none =>
    obtain ⟨a, ha⟩ := Option.isSome_iff_exists.mp
      (extract_answer_simple_isSome query best rest (pvGet best.metadata "source_url"))
    exact ⟨⟨a, pvGet best.metadata "source_url", some (best :: rest).length⟩,
      by simp [format_answer, ha], rfl⟩
  | some llm =>
    cases hg : llm.gen (buildPrompt query (best :: rest)
        (pvGet best.metadata "source_url") conversation_history) with
    | ok text =>
      exact ⟨⟨appendSourceIfMissing (pyStrip text) (pvGet best.metadata "source_url"),
        pvGet best.metadata "source_url", some (best :: rest).length⟩,
        by simp [format_answer, generate_answer, hg], rfl⟩
    | error e =>
      by_cases hq : quotaShaped e
      · obtain ⟨a, ha⟩ := Option.isSome_iff_exists.mp
          (extract_from_context_isSome query best rest (pvGet best.metadata "source_url")
            conversation_history)
        exact ⟨⟨a, pvGet best.metadata "source_url", some (best :: rest).length⟩,
          by simp [format_answer, generate_answer, hg, hq, ha], rfl⟩
      · exact ⟨⟨"I encountered an error while generating the answer. Please try again. Error: " ++ e,
          pvGet best.metadata "source_url", some (best :: rest).length⟩,
          by simp [format_answer, generate_answer, hg, hq], rfl⟩

theorem str_append_empty (s : String) : s ++ "" = s := by
  apply String.ext
  simp [String.data_append]

theorem mem_cohortChunks_eq {r : CourseRecord} {c : Chunk} (h : c ∈ cohortChunks r) :
    c = { content := pyStrip (cohortText r),
          metadata := [("type", PyVal.str "cohort"),
                       ("cohort_name", PyVal.str (cohortName r)),
                       ("source_url", PyVal.str (sourceUrl r)),
                       ("field", PyVal.str "cohort_info")] } := by
  rw [cohortChunks] at h
  split at h
  · simpa using h
  · simp at h

theorem mem_batchChunks_eq {r : CourseRecord} {c : Chunk} (h : c ∈ batchChunks r) :
    c = { content := pyStrip (batchText r),
          metadata := [("type", PyVal.str "batch"),
                       ("cohort_name", PyVal.str (cohortName r)),
                       ("source_url", PyVal.str (sourceUrl r)),
                       ("field", PyVal.str "batch_info"),
                       ("cost", optPv r.batch.cost),
                       ("batch_start_date", optPv r.batch.batch_start_date),
                       ("course_type", optPv r.batch.course_type)] } := by
  rw [batchChunks] at h
  split at h
  · simpa using h
  · simp at h

theorem mem_paymentChunks_eq {r : CourseRecord} {c : Chunk} (h : c ∈ paymentChunks r) :
    c = { content := pyStrip (paymentText r),
          metadata := [("type", PyVal.str "payment"),
                       ("cohort_name", PyVal.str (cohortName r)),
                       ("source_url", PyVal.str (sourceUrl r)),
                       ("field", PyVal.str "payment_options"),
                       ("emi_options", PyVal.list r.emi_options)] } := by
  rw [paymentChunks] at h
  split at h
  · split at h
    · simpa using h
    · simp at h
  · simp at h

theorem mem_curriculumChunks_eq {r : CourseRecord} {c : Chunk} (h : c ∈ curriculumChunks r) :
    ∃ p : Nat × String, p ∈ r.curriculum.enum ∧
      c = { content := "Curriculum for " ++ cohortName r ++ ": " ++ p.2,
            metadata := [("type", PyVal.str "curriculum"),
                         ("cohort_name", PyVal.str (cohortName r)),
                         ("source_url", PyVal.str (sourceUrl r)),
                         ("field", PyVal.str "curriculum"),
                         ("item_index", PyVal.int p.1)] } := by
  rw [curriculumChunks] at h
  obtain ⟨p, hp, rfl⟩ := List.mem_map.mp h
  exact ⟨p, hp, rfl⟩

theorem mem_mentorsChunks_eq {r : CourseRecord} {c : Chunk} (h : c ∈ mentorsChunks r) :
    c = { content := pyStrip (mentorsText r),
          metadata := [("type", PyVal.str "mentors_instructors"),
                       ("cohort_name", PyVal.str (cohortName r)),
                       ("source_url", PyVal.str (sourceUrl r)),
                       ("field", PyVal.str "mentors_instructors"),
                       ("instructors", PyVal.list r.mentors_instructors.instructors),
                       ("mentors", PyVal.list r.mentors_instructors.mentors)] } := by
  rw [mentorsChunks] at h
  split at h
  · simpa using h
  · simp at h

theorem mem_placementsChunks_eq {r : CourseRecord} {c : Chunk} (h : c ∈ placementsChunks r) :
    c = { content := "Placement Information for " ++ cohortName r ++ ": " ++
                       optStr r.placement_text,
          metadata := [("type", PyVal.str "placements"),
                       ("cohort_name", PyVal.str (cohortName r)),
                       ("source_url", PyVal.str (sourceUrl r)),
                       ("field", PyVal.str "placements")] } := by
  rw [placementsChunks] at h
  split at h
  · simpa using h
  · simp at h

theorem mem_reviewsChunks_eq {r : CourseRecord} {c : Chunk} (h : c ∈ reviewsChunks r) :
    c = { content := "Reviews for " ++ cohortName r ++ ": " ++
                       String.intercalate "\n" (r.reviews.take 3),
          metadata := [("type", PyVal.str "reviews"),
                       ("cohort_name", PyVal.str (cohortName r)),
                       ("source_url", PyVal.str (sourceUrl r)),
                       ("field", PyVal.str "reviews")] } := by
  rw [reviewsChunks] at h
  split at h
  · simpa using h
  · simp at h

theorem mem_cohortChunks_type {r : CourseRecord} {c : Chunk} (h : c ∈ cohortChunks r) :
    pvGet c.metadata "type" = PyVal.str "cohort" := by
  have hc := mem_cohortChunks_eq h
  subst hc
  rfl

theorem mem_batchChunks_type {r : CourseRecord} {c : Chunk} (h : c ∈ batchChunks r) :
    pvGet c.metadata "type" = PyVal.str "batch" := by
  have hc := mem_batchChunks_eq h
  subst hc
  rfl

theorem mem_paymentChunks_type {r : CourseRecord} {c : Chunk} (h : c ∈ paymentChunks r) :
    pvGet c.metadata "type" = PyVal.str "payment" := by
  have hc := mem_paymentChunks_eq h
  subst hc
  rfl

theorem mem_curriculumChunks_type {r : CourseRecord} {c : Chunk} (h : c ∈ curriculumChunks r) :
    pvGet c.metadata "type" = PyVal.str "curriculum" := by
  obtain ⟨p, _, rfl⟩ := mem_curriculumChunks_eq h
  rfl

theorem mem_mentorsChunks_type {r : CourseRecord} {c : Chunk} (h : c ∈ mentorsChunks r) :
    pvGet c.metadata "type" = PyVal.str "mentors_instructors" := by
  have hc := mem_mentorsChunks_eq h
  subst hc
  rfl

theorem mem_placementsChunks_type {r : CourseRecord} {c : Chunk} (h : c ∈ placementsChunks r) :
    pvGet c.metadata "type" = PyVal.str "placements" := by
  have hc := mem_placementsChunks_eq h
  subst hc
  rfl

theorem mem_reviewsChunks_type {r : CourseRecord} {c : Chunk} (h : c ∈ reviewsChunks r) :
    pvGet c.metadata "type" = PyVal.str "reviews" := by
  have hc := mem_reviewsChunks_eq h
  subst hc
  rfl

theorem mem_chunk_course_data_cases {r : CourseRecord} {c : Chunk}
    (h : c ∈ chunk_course_data r) :
    c ∈ cohortChunks r ∨ c ∈ batchChunks r ∨ c ∈ paymentChunks r ∨
      c ∈ curriculumChunks r ∨ c ∈ mentorsChunks r ∨ c ∈ placementsChunks r ∨
      c ∈ reviewsChunks r := by
  rw [chunk_course_data] at h
  rcases List.mem_append.mp h with h | hx
  · rcases List.mem_append.mp h with h | hx
    · rcases List.mem_append.mp h with h | hx
      · rcases List.mem_append.mp h with h | hx
        · rcases List.mem_append.mp h with h | hx
          · rcases List.mem_append.mp h with h | hx
            · exact Or.inl h
            · exact Or.inr (Or.inl hx)
          · exact Or.inr (Or.inr (Or.inl hx))
        · exact Or.inr (Or.inr (Or.inr (Or.inl hx)))
      · exact Or.inr (Or.inr (Or.inr (Or.inr (Or.inl hx))))
    · exact Or.inr (Or.inr (Or.inr (Or.inr (Or.inr (Or.inl hx)))))
  · exact Or.inr (Or.inr (Or.inr (Or.inr (Or.inr (Or.inr hx)))))

theorem filter_not_type {l : List Chunk} {ty : String}
    (h : ∀ c ∈ l, pvGet c.metadata "type" ≠ PyVal.str ty) :
    l.filter (fun c => decide (pvGet c.metadata "type" = PyVal.str ty)) = [] := by
  rw [List.filter_eq_nil]
  intro c hc
  simpa using h c hc

theorem cohortText_head (r : CourseRecord) :
    ∃ t, (cohortText r).data = 'C' :: t := by
  refine ⟨"ohort: ".data ++ (optStr r.cohort.cohort_name).data ++ "\n".data ++
    "Description: ".data ++ (optStr r.cohort.cohort_description).data, ?_⟩
  simp [cohortText, String.data_append, List.append_assoc]

theorem pyStrip_cohortText_ne (r : CourseRecord) : pyStrip (cohortText r) ≠ "" := by
  obtain ⟨t, ht⟩ := cohortText_head r
  exact pyStrip_ne_empty_of_head ht rfl

theorem cohortChunks_eq (r : CourseRecord) :
    cohortChunks r =
      [{ content := pyStrip (cohortText r),
         metadata := [("type", PyVal.str "cohort"),
                      ("cohort_name", PyVal.str (cohortName r)),
                      ("source_url", PyVal.str (sourceUrl r)),
                      ("field", PyVal.str "cohort_info")] }] := by
  rw [cohortChunks, if_pos (pyStrip_cohortText_ne r)]

/-- C4 counterexample: a record whose cohort name and description are both
present and empty still produces a cohort-type chunk (the guard
`if cohort_text.strip():` is always satisfied because of the literal labels),
contradicting the claim that such a record produces no cohort chunk. -/
theorem cohort_chunk_claim_counterexample :
    (chunk_course_data
        { source_url := some "https://x/y",
          cohort := ⟨some "", some ""⟩,
          batch := ⟨Option.none, Option.none, Option.none⟩,
          emi_options := [], curriculum := [], mentors_instructors := ⟨[], []⟩,
          placement_text := Option.none, reviews := [] }).filter
      (fun c => decide (pvGet c.metadata "type" = PyVal.str "cohort")) ≠ [] := by
  decide

/-- C4 (amended): `chunk_course_data` always emits exactly one cohort-type
chunk, whatever the cohort name and description are (the emission guard
`cohort_text.strip()` is always truthy because of the literal
`Cohort:`/`Description:` labels); its content is the stripped
`"Cohort: {name}\nDescription: {description}"` text. -/
theorem cohort_chunk_always_emitted (r : CourseRecord) :
    (chunk_course_data r).filter
        (fun c => decide (pvGet c.metadata "type" = PyVal.str "cohort"))
      = [{ content := pyStrip (cohortText r),
           metadata := [("type", PyVal.str "cohort"),
                        ("cohort_name", PyVal.str (cohortName r)),
                        ("source_url", PyVal.str (sourceUrl r)),
                        ("field", PyVal.str "cohort_info")] }] := by
  have h1 : (cohortChunks r).filter
      (fun c => decide (pvGet c.metadata "type" = PyVal.str "cohort")) = cohortChunks r :=
    List.filter_eq_self.mpr (fun c hc => by rw [mem_cohortChunks_type hc]; decide)
  have h2 : (batchChunks r).filter
      (fun c => decide (pvGet c.metadata "type" = PyVal.str "cohort")) = [] :=
    filter_not_type (fun c hc => by rw [mem_batchChunks_type hc]; decide)
  have h3 : (paymentChunks r).filter
      (fun c => decide (pvGet c.metadata "type" = PyVal.str "cohort")) = [] :=
    filter_not_type (fun c hc => by rw [mem_paymentChunks_type hc]; decide)
  have h4 : (curriculumChunks r).filter
      (fun c => decide (pvGet c.metadata "type" = PyVal.str "cohort")) = [] :=
    filter_not_type (fun c hc => by rw [mem_curriculumChunks_type hc]; decide)
  have h5 : (mentorsChunks r).filter
      (fun c => decide (pvGet c.metadata "type" = PyVal.str "cohort")) = [] :=
    filter_not_type (fun c hc => by rw [mem_mentorsChunks_type hc]; decide)
  have h6 : (placementsChunks r).filter
      (fun c => decide (pvGet c.metadata "type" = PyVal.str "cohort")) = [] :=
    filter_not_type (fun c hc => by rw [mem_placementsChunks_type hc]; decide)
  have h7 : (reviewsChunks r).filter
      (fun c => decide (pvGet c.metadata "type" = PyVal.str "cohort")) = [] :=
    filter_not_type (fun c hc => by rw [mem_reviewsChunks_type hc]; decide)
  rw [chunk_course_data, List.filter_append, List.filter_append, List.filter_append,
    List.filter_append, List.filter_append, List.filter_append,
    h1, h2, h3, h4, h5, h6, h7, cohortChunks_eq]
  simp

theorem batchChunks_nil_of_empty (r : CourseRecord)
    (h1 : optTruthy r.batch.batch_start_date = false)
    (h2 : optTruthy r.batch.cost = false)
    (h3 : optTruthy r.batch.course_type = false) : batchChunks r = [] := by
  rw [batchChunks, if_neg]
  intro hcond
  have hbt : batchText r = batchHeader r := by
    rw [batchText, h1, h2, h3]
    simp only [if_false, Bool.false_eq_true]
    rw [str_append_empty, str_append_empty, str_append_empty]
  rcases hcond with ⟨_, hlen⟩
  rw [hbt] at hlen
  have := pyStrip_length_le (batchHeader r)
  omega

/-- C6: a CourseRecord whose batch group has no (truthy) start date, cost or
course type produces zero batch-type chunks; and any batch-type chunk ever
emitted has as content the stripped `batch_text`, which lists exactly the
present fields one per line after the header. -/
theorem batch_chunk_minimality :
    (∀ r : CourseRecord,
        optTruthy r.batch.batch_start_date = false →
        optTruthy r.batch.cost = false →
        optTruthy r.batch.course_type = false →
        (chunk_course_data r).filter
            (fun c => decide (pvGet c.metadata "type" = PyVal.str "batch")) = [])
    ∧ (∀ (r : CourseRecord), ∀ c ∈ chunk_course_data r,
        pvGet c.metadata "type" = PyVal.str "batch" → c.content = pyStrip (batchText r)) := by
  constructor
  · intro r h1 h2 h3
    apply filter_not_type
    intro c hc hty
    rcases mem_chunk_course_data_cases hc with hm | hm | hm | hm | hm | hm | hm
    · rw [mem_cohortChunks_type hm] at hty; exact absurd hty (by decide)
    · rw [batchChunks_nil_of_empty r h1 h2 h3] at hm; simp at hm
    · rw [mem_paymentChunks_type hm] at hty; exact absurd hty (by decide)
    · rw [mem_curriculumChunks_type hm] at hty; exact absurd hty (by decide)
    · rw [mem_mentorsChunks_type hm] at hty; exact absurd hty (by decide)
    · rw [mem_placementsChunks_type hm] at hty; exact absurd hty (by decide)
    · rw [mem_reviewsChunks_type hm] at hty; exact absurd hty (by decide)
  · intro r c hc hty
    rcases mem_chunk_course_data_cases hc with hm | hm | hm | hm | hm | hm | hm
    · rw [mem_cohortChunks_type hm] at hty; exact absurd hty (by decide)
    · have hcc := mem_batchChunks_eq hm; subst hcc; rfl
    · rw [mem_paymentChunks_type hm] at hty; exact absurd hty (by decide)
    · rw [mem_curriculumChunks_type hm] at hty; exact absurd hty (by decide)
    · rw [mem_mentorsChunks_type hm] at hty; exact absurd hty (by decide)
    · rw [mem_placementsChunks_type hm] at hty; exact absurd hty (by decide)
    · rw [mem_reviewsChunks_type hm] at hty; exact absurd hty (by decide)

theorem batch_chunk_minimality_witness :
    (optTruthy (Option.none : Option String) = false) ∧
    (chunk_course_data
        { source_url := some "https://x/y",
          cohort := ⟨some "PM", Option.none⟩,
          batch := ⟨Option.none, Option.none, Option.none⟩,
          emi_options := [], curriculum := [], mentors_instructors := ⟨[], []⟩,
          placement_text := Option.none, reviews := [] }).filter
      (fun c => decide (pvGet c.metadata "type" = PyVal.str "batch")) = [] :=
  ⟨by decide,
    batch_chunk_minimality.1
      { source_url := some "https://x/y",
        cohort := ⟨some "PM", Option.none⟩,
        batch := ⟨Option.none, Option.none, Option.none⟩,
        emi_options := [], curriculum := [], mentors_instructors := ⟨[], []⟩,
        placement_text := Option.none, reviews := [] }
      (by decide) (by decide) (by decide)⟩

/-- C9: when the cohort name key is absent from the record, every chunk
emitted by `chunk_course_data` carries the fabricated literal `"Unknown"` as
its `cohort_name` metadata. -/
theorem chunk_cohort_name_unknown (r : CourseRecord)
    (h : r.cohort.cohort_name = Option.none) :
    ∀ c ∈ chunk_course_data r, pvGet c.metadata "cohort_name" = PyVal.str "Unknown" := by
  have hu : cohortName r = "Unknown" := by rw [cohortName, h]; rfl
  intro c hc
  rcases mem_chunk_course_data_cases hc with hm | hm | hm | hm | hm | hm | hm
  · have hcc := mem_cohortChunks_eq hm; subst hcc
    show PyVal.str (cohortName r) = PyVal.str "Unknown"
    rw [hu]
  · have hcc := mem_batchChunks_eq hm; subst hcc
    show PyVal.str (cohortName r) = PyVal.str "Unknown"
    rw [hu]
  · have hcc := mem_paymentChunks_eq hm; subst hcc
    show PyVal.str (cohortName r) = PyVal.str "Unknown"
    rw [hu]
  · obtain ⟨p, _, rfl⟩ := mem_curriculumChunks_eq hm
    show PyVal.str (cohortName r) = PyVal.str "Unknown"
    rw [hu]
  · have hcc := mem_mentorsChunks_eq hm; subst hcc
    show PyVal.str (cohortName r) = PyVal.str "Unknown"
    rw [hu]
  · have hcc := mem_placementsChunks_eq hm; subst hcc
    show PyVal.str (cohortName r) = PyVal.str "Unknown"
    rw [hu]
  · have hcc := mem_reviewsChunks_eq hm; subst hcc
    show PyVal.str (cohortName r) = PyVal.str "Unknown"
    rw [hu]

theorem chunk_cohort_name_unknown_witness :
    ((⟨Option.none, some "d"⟩ : CohortData).cohort_name = Option.none) ∧
    (∀ c ∈ chunk_course_data
        { source_url := some "https://x/y",
          cohort := ⟨Option.none, some "d"⟩,
          batch := ⟨some "Jan 3", Option.none, Option.none⟩,
          emi_options := ["plan"], curriculum := ["t1"], mentors_instructors := ⟨[], []⟩,
          placement_text := Option.none, reviews := [] },
      pvGet c.metadata "cohort_name" = PyVal.str "Unknown") :=
  ⟨rfl,
    chunk_cohort_name_unknown
      { source_url := some "https://x/y",
        cohort := ⟨Option.none, some "d"⟩,
        batch := ⟨some "Jan 3", Option.none, Option.none⟩,
        emi_options := ["plan"], curriculum := ["t1"], mentors_instructors := ⟨[], []⟩,
        placement_text := Option.none, reviews := [] }
      rfl⟩

theorem chunk_course_data_filter_curriculum (r : CourseRecord) :
    (chunk_course_data r).filter
        (fun c => decide (pvGet c.metadata "type" = PyVal.str "curriculum"))
      = curriculumChunks r := by
  have h1 : (cohortChunks r).filter
      (fun c => decide (pvGet c.metadata "type" = PyVal.str "curriculum")) = [] :=
    filter_not_type (fun c hc => by rw [mem_cohortChunks_type hc]; decide)
  have h2 : (batchChunks r).filter
      (fun c => decide (pvGet c.metadata "type" = PyVal.str "curriculum")) = [] :=
    filter_not_type (fun c hc => by rw [mem_batchChunks_type hc]; decide)
  have h3 : (paymentChunks r).filter
      (fun c => decide (pvGet c.metadata "type" = PyVal.str "curriculum")) = [] :=
    filter_not_type (fun c hc => by rw [mem_paymentChunks_type hc]; decide)
  have h4 : (curriculumChunks r).filter
      (fun c => decide (pvGet c.metadata "type" = PyVal.str "curriculum"))
      = curriculumChunks r :=
    List.filter_eq_self.mpr (fun c hc => by rw [mem_curriculumChunks_type hc]; decide)
  have h5 : (mentorsChunks r).filter
      (fun c => decide (pvGet c.metadata "type" = PyVal.str "curriculum")) = [] :=
    filter_not_type (fun c hc => by rw [mem_mentorsChunks_type hc]; decide)
  have h6 : (placementsChunks r).filter
      (fun c => decide (pvGet c.metadata "type" = PyVal.str "curriculum")) = [] :=
    filter_not_type (fun c hc => by rw [mem_placementsChunks_type hc]; decide)
  have h7 : (reviewsChunks r).filter
      (fun c => decide (pvGet c.metadata "type" = PyVal.str "curriculum")) = [] :=
    filter_not_type (fun c hc => by rw [mem_reviewsChunks_type hc]; decide)
  rw [chunk_course_data, List.filter_append, List.filter_append, List.filter_append,
    List.filter_append, List.filter_append, List.filter_append,
    h1, h2, h3, h4, h5, h6, h7]
  simp

/-- C5: for a record whose curriculum list consists of non-empty items,
`chunk_course_data` emits exactly one curriculum-type chunk per item, in the
original order, with `item_index` metadata running over `0..N-1`. -/
theorem curriculum_chunk_coverage (r : CourseRecord)
    (hne : ∀ item ∈ r.curriculum, item ≠ "") :
    ((chunk_course_data r).filter
        (fun c => decide (pvGet c.metadata "type" = PyVal.str "curriculum"))).length
      = r.curriculum.length
    ∧ ((chunk_course_data r).filter
        (fun c => decide (pvGet c.metadata "type" = PyVal.str "curriculum"))).map
          (fun c => pvGet c.metadata "item_index")
      = (List.range r.curriculum.length).map (fun i : Nat => PyVal.int (i : Int))
    ∧ ((chunk_course_data r).filter
        (fun c => decide (pvGet c.metadata "type" = PyVal.str "curriculum"))).map
          Chunk.content
      = r.curriculum.map (fun item => "Curriculum for " ++ cohortName r ++ ": " ++ item) := by
  rw [chunk_course_data_filter_curriculum]
  refine ⟨?_, ?_, ?_⟩
  · rw [curriculumChunks, List.length_map, List.enum_length]
  · calc (curriculumChunks r).map (fun c => pvGet c.metadata "item_index")
        = r.curriculum.enum.map (fun p => PyVal.int (p.1 : Int)) := by
          rw [curriculumChunks, List.map_map]
          rfl
      _ = (r.curriculum.enum.map Prod.fst).map (fun n : Nat => PyVal.int (n : Int)) := by
          rw [List.map_map]
          rfl
      _ = (List.range r.curriculum.length).map (fun i : Nat => PyVal.int (i : Int)) := by
          rw [List.enum_map_fst]
  · calc (curriculumChunks r).map Chunk.content
        = r.curriculum.enum.map
            (fun p => "Curriculum for " ++ cohortName r ++ ": " ++ p.2) := by
          rw [curriculumChunks, List.map_map]
          rfl
      _ = (r.curriculum.enum.map Prod.snd).map
            (fun item => "Curriculum for " ++ cohortName r ++ ": " ++ item) := by
          rw [List.map_map]
          rfl
      _ = r.curriculum.map
            (fun item => "Curriculum for " ++ cohortName r ++ ": " ++ item) := by
          rw [List.enum_map_snd]

theorem curriculum_chunk_coverage_witness :
    (∀ item ∈ ["intro", "sql"], item ≠ "") ∧
    (((chunk_course_data
        { source_url := some "https://x/y",
          cohort := ⟨some "DA", Option.none⟩,
          batch := ⟨Option.none, Option.none, Option.none⟩,
          emi_options := [], curriculum := ["intro", "sql"],
          mentors_instructors := ⟨[], []⟩,
          placement_text := Option.none, reviews := [] }).filter
        (fun c => decide (pvGet c.metadata "type" = PyVal.str "curriculum"))).length
      = (["intro", "sql"] : List String).length
    ∧ ((chunk_course_data
        { source_url := some "https://x/y",
          cohort := ⟨some "DA", Option.none⟩,
          batch := ⟨Option.none, Option.none, Option.none⟩,
          emi_options := [], curriculum := ["intro", "sql"],
          mentors_instructors := ⟨[], []⟩,
          placement_text := Option.none, reviews := [] }).filter
        (fun c => decide (pvGet c.metadata "type" = PyVal.str "curriculum"))).map
          (fun c => pvGet c.metadata "item_index")
      = (List.range (["intro", "sql"] : List String).length).map
          (fun i : Nat => PyVal.int (i : Int))
    ∧ ((chunk_course_data
        { source_url := some "https://x/y",
          cohort := ⟨some "DA", Option.none⟩,
          batch := ⟨Option.none, Option.none, Option.none⟩,
          emi_options := [], curriculum := ["intro", "sql"],
          mentors_instructors := ⟨[], []⟩,
          placement_text := Option.none, reviews := [] }).filter
        (fun c => decide (pvGet c.metadata "type" = PyVal.str "curriculum"))).map
          Chunk.content
      = (["intro", "sql"] : List String).map
          (fun item => "Curriculum for "
            ++ cohortName
              { source_url := some "https://x/y",
                cohort := ⟨some "DA", Option.none⟩,
                batch := ⟨Option.none, Option.none, Option.none⟩,
                emi_options := [], curriculum := ["intro", "sql"],
                mentors_instructors := ⟨[], []⟩,
                placement_text := Option.none, reviews := [] } ++ ": " ++ item)) :=
  ⟨by decide,
    curriculum_chunk_coverage
      { source_url := some "https://x/y",
        cohort := ⟨some "DA", Option.none⟩,
        batch := ⟨Option.none, Option.none, Option.none⟩,
        emi_options := [], curriculum := ["intro", "sql"],
        mentors_instructors := ⟨[], []⟩,
        placement_text := Option.none, reviews := [] }
      (by decide)⟩

/-- C7: when the generation capability raises any quota/rate-limit-shaped
error (text containing "quota" or "429"), `generate_answer` recovers by
deterministic extraction and returns an answer (no propagated error): for the
query "What is the cost?" against a ranked chunk whose `cost` metadata is
"32,999", the answer contains the substring "32,999". -/
theorem quota_fallback_extracts_cost (e : String) (hq : quotaShaped e = true) :
    ∃ a, generate_answer ⟨fun _ => Except.error e⟩ "What is the cost?"
        [⟨"Batch Information", [("type", PyVal.str "batch"),
            ("cost", PyVal.str "32,999")], PyVal.none⟩]
        (PyVal.str "https://x/y") "" = some a
      ∧ strContains a "32,999" = true := by
  have h1 : generate_answer ⟨fun _ => Except.error e⟩ "What is the cost?"
      [⟨"Batch Information", [("type", PyVal.str "batch"),
          ("cost", PyVal.str "32,999")], PyVal.none⟩]
      (PyVal.str "https://x/y") ""
      = extract_from_context "What is the cost?"
          [⟨"Batch Information", [("type", PyVal.str "batch"),
              ("cost", PyVal.str "32,999")], PyVal.none⟩]
          (PyVal.str "https://x/y") "" := by
    rw [generate_answer]
    simp [hq]
  rw [h1]
  exact ⟨_, rfl, by decide⟩

theorem quota_fallback_extracts_cost_witness :
    (quotaShaped "429 Too Many Requests" = true) ∧
    (∃ a, generate_answer ⟨fun _ => Except.error "429 Too Many Requests"⟩ "What is the cost?"
        [⟨"Batch Information", [("type", PyVal.str "batch"),
            ("cost", PyVal.str "32,999")], PyVal.none⟩]
        (PyVal.str "https://x/y") "" = some a
      ∧ strContains a "32,999" = true) :=
  ⟨by decide, quota_fallback_extracts_cost "429 Too Many Requests" (by decide)⟩

/-- C8: `add_chunks` fails with the arity-mismatch `ValueError` exactly when
the chunk and embedding counts differ; on equal counts it succeeds and
assigns one position-based identifier per chunk, all distinct. -/
theorem add_chunks_arity (chunks : List Chunk) (embeddings : List (List Int)) :
    ((∃ msg, add_chunks chunks embeddings = Except.error msg)
        ↔ chunks.length ≠ embeddings.length)
    ∧ (∀ res, add_chunks chunks embeddings = Except.ok res →
        res.ids = (List.range chunks.length).map (fun i => "chunk_" ++ Nat.repr i)
        ∧ res.ids.length = chunks.length
        ∧ res.ids.Nodup
        ∧ res.documents = chunks.map Chunk.content) := by
  by_cases hl : chunks.length = embeddings.length
  · have hok : add_chunks chunks embeddings
        = Except.ok ⟨(List.range chunks.length).map (fun i => "chunk_" ++ Nat.repr i),
            embeddings, chunks.map Chunk.content,
            chunks.map (fun c => normalizeMetadata c.metadata)⟩ := by
      rw [add_chunks, if_neg (fun h => h hl)]
    refine ⟨⟨?_, fun hne => absurd hl hne⟩, ?_⟩
    · rintro ⟨msg, hmsg⟩
      rw [hok] at hmsg
      exact absurd hmsg (by simp)
    · intro res hres
      rw [hok] at hres
      have hres' := Except.ok.inj hres
      subst hres'
      refine ⟨rfl, ?_, ?_, rfl⟩
      · rw [List.length_map, List.length_range]
      · exact (List.nodup_range _).map chunkId_injective
  · have herr : add_chunks chunks embeddings
        = Except.error "Number of chunks must match number of embeddings" := by
      rw [add_chunks, if_pos hl]
    refine ⟨⟨fun _ => hl, fun _ => ⟨_, herr⟩⟩, ?_⟩
    intro res hres
    rw [herr] at hres
    exact absurd hres (by simp)

theorem add_chunks_arity_witness :
    (add_chunks [⟨"a", []⟩, ⟨"b", [("k", PyVal.list ["x", "y"])]⟩] [[1], [2]]
        = Except.ok ⟨["chunk_0", "chunk_1"], [[1], [2]], ["a", "b"],
            [[], [("k", PyVal.str "x, y")]]⟩)
    ∧ ((⟨["chunk_0", "chunk_1"], [[1], [2]], ["a", "b"],
            [[], [("k", PyVal.str "x, y")]]⟩ : AddCall).ids
          = (List.range ([⟨"a", []⟩, ⟨"b", [("k", PyVal.list ["x", "y"])]⟩] : List Chunk).length).map
              (fun i => "chunk_" ++ Nat.repr i)
        ∧ (⟨["chunk_0", "chunk_1"], [[1], [2]], ["a", "b"],
              [[], [("k", PyVal.str "x, y")]]⟩ : AddCall).ids.length
            = ([⟨"a", []⟩, ⟨"b", [("k", PyVal.list ["x", "y"])]⟩] : List Chunk).length
        ∧ (⟨["chunk_0", "chunk_1"], [[1], [2]], ["a", "b"],
              [[], [("k", PyVal.str "x, y")]]⟩ : AddCall).ids.Nodup
        ∧ (⟨["chunk_0", "chunk_1"], [[1], [2]], ["a", "b"],
              [[], [("k", PyVal.str "x, y")]]⟩ : AddCall).documents
            = ([⟨"a", []⟩, ⟨"b", [("k", PyVal.list ["x", "y"])]⟩] : List Chunk).map
                Chunk.content) :=
  ⟨rfl,
    (add_chunks_arity [⟨"a", []⟩, ⟨"b", [("k", PyVal.list ["x", "y"])]⟩] [[1], [2]]).2
      ⟨["chunk_0", "chunk_1"], [[1], [2]], ["a", "b"], [[], [("k", PyVal.str "x, y")]]⟩
      rfl⟩

/-- C10: `get_history` with `last_n = 0` returns the whole stored history
(the tail slice only applies to truthy `last_n`), and any positive `last_n`
returns the most recent `last_n` turns, oldest first. -/
theorem get_history_last_n (m : ConversationMemory) (sid : String) :
    get_history m sid (some 0) = get_history m sid Option.none
    ∧ (∀ n : Nat, 0 < n →
        get_history m sid (some (n : Int))
          = (get_history m sid Option.none).drop
              ((get_history m sid Option.none).length - n)) := by
  constructor
  · rw [get_history, get_history]
    cases m.conversations sid with
    | none => rfl
    | some h => simp
  · intro n hn
    rw [get_history, get_history]
    cases m.conversations sid with
    | none => simp
    | some h =>
      have hne : (n : Int) ≠ 0 := by
        exact_mod_cast Nat.pos_iff_ne_zero.mp hn
      show (if (n : Int) ≠ 0 then pySliceFrom h (-(n : Int)) else h) = h.drop (h.length - n)
      rw [if_pos hne, pySliceFrom, if_pos (by omega : -(n : Int) < 0)]
      congr 1
      omega

theorem get_history_last_n_witness :
    (0 < 2) ∧
    (get_history
        ⟨20, fun s => if s = "s" then
            some [⟨"user", "a", "t", []⟩, ⟨"assistant", "b", "t", []⟩, ⟨"user", "c", "t", []⟩]
          else Option.none⟩ "s" (some ((2 : Nat) : Int))
      = (get_history
          ⟨20, fun s => if s = "s" then
              some [⟨"user", "a", "t", []⟩, ⟨"assistant", "b", "t", []⟩, ⟨"user", "c", "t", []⟩]
            else Option.none⟩ "s" Option.none).drop
          ((get_history
            ⟨20, fun s => if s = "s" then
                some [⟨"user", "a", "t", []⟩, ⟨"assistant", "b", "t", []⟩, ⟨"user", "c", "t", []⟩]
              else Option.none⟩ "s" Option.none).length - 2)) :=
  ⟨by decide,
    (get_history_last_n
      ⟨20, fun s => if s = "s" then
          some [⟨"user", "a", "t", []⟩, ⟨"assistant", "b", "t", []⟩, ⟨"user", "c", "t", []⟩]
        else Option.none⟩ "s").2 2 (by decide)⟩
